import Mathlib

/-!
Verification development for the MandelZoomGPU interactive Mandelbrot viewer
(src/main.cpp).  The host-side doubles are modelled as exact rationals (ℚ),
except for the iteration-cap policy which involves `log10` and is modelled
over ℝ.  C-style int casts (truncation toward zero) are modelled explicitly.
-/

namespace MandelZoom

/-- C-style cast of a rational to int: truncation toward zero. -/
def cTruncQ (x : ℚ) : ℤ := if 0 ≤ x then ⌊x⌋ else ⌈x⌉

/-- C-style cast of a real to int: truncation toward zero. -/
noncomputable def cTruncZ (x : ℝ) : ℤ := if 0 ≤ x then ⌊x⌋ else ⌈x⌉

/-! ## Global interaction state (src/main.cpp lines 66-79) -/

/-- The mutable globals of src/main.cpp (lines 67-79) that the GLFW event
callbacks read and write: camera (`centerX`, `centerY`, `zoom`), pointer
position, framebuffer and logical-window sizes, and the drag flag. -/
structure AppState where
  centerX : ℚ
  centerY : ℚ
  zoom : ℚ
  mouseX : ℚ
  mouseY : ℚ
  width : ℤ
  height : ℤ
  windowWidth : ℤ
  windowHeight : ℤ
  dragging : Bool
  lastMouseX : ℚ
  lastMouseY : ℚ
deriving Repr, DecidableEq

/-- Initial values of the globals (lines 67-79): center (-0.5, 0), zoom 2.0,
800x600 framebuffer and window, not dragging. -/
def initState : AppState :=
  { centerX := -1/2, centerY := 0, zoom := 2,
    mouseX := 0, mouseY := 0,
    width := 800, height := 600, windowWidth := 800, windowHeight := 600,
    dragging := false, lastMouseX := 0, lastMouseY := 0 }

def GLFW_MOUSE_BUTTON_LEFT : ℤ := 0
def GLFW_PRESS : ℤ := 1
def GLFW_RELEASE : ℤ := 0

/-- scroll_callback (lines 143-159): pick the factor 0.9 (scroll up) or 1.1,
scale the pointer to framebuffer coordinates, form the centered uv offset
normalized by min(width, height), multiply the zoom by the factor and shift
the center by uv * (oldZoom - newZoom). -/
def scroll_callback (xoffset yoffset : ℚ) (s : AppState) : AppState :=
  let zoomFactor : ℚ := if 0 < yoffset then 9/10 else 11/10
  let fbMouseX : ℚ := s.mouseX * (s.width : ℚ) / (s.windowWidth : ℚ)
  let fbMouseY : ℚ := s.mouseY * (s.height : ℚ) / (s.windowHeight : ℚ)
  let minRes : ℚ := ((min s.width s.height : ℤ) : ℚ)
  let uv_x : ℚ := (fbMouseX - 1/2 * (s.width : ℚ)) / minRes
  let uv_y : ℚ := (fbMouseY - 1/2 * (s.height : ℚ)) / minRes
  let oldZoom := s.zoom
  let newZoom := s.zoom * zoomFactor
  { s with zoom := newZoom,
           centerX := s.centerX + uv_x * (oldZoom - newZoom),
           centerY := s.centerY + uv_y * (oldZoom - newZoom) }

/-- cursor_position_callback (lines 161-177): while dragging, convert the
pointer delta to framebuffer pixels, then to plane units via min-dimension
normalization times zoom, and subtract from the center; always record the
new pointer position. -/
def cursor_position_callback (xpos ypos : ℚ) (s : AppState) : AppState :=
  let s1 :=
    if s.dragging then
      let deltaX := xpos - s.lastMouseX
      let deltaY := ypos - s.lastMouseY
      let fbDeltaX := deltaX * (s.width : ℚ) / (s.windowWidth : ℚ)
      let fbDeltaY := deltaY * (s.height : ℚ) / (s.windowHeight : ℚ)
      let minRes : ℚ := ((min s.width s.height : ℤ) : ℚ)
      { s with centerX := s.centerX - fbDeltaX / minRes * s.zoom,
               centerY := s.centerY - fbDeltaY / minRes * s.zoom }
    else s
  { s1 with mouseX := xpos, mouseY := ypos, lastMouseX := xpos, lastMouseY := ypos }

/-- mouse_button_callback (lines 179-188): left press starts dragging and
records the queried cursor position (`qx`, `qy` stand for the result of
glfwGetCursorPos); left release stops dragging. -/
def mouse_button_callback (button action : ℤ) (qx qy : ℚ) (s : AppState) : AppState :=
  if button = GLFW_MOUSE_BUTTON_LEFT then
    if action = GLFW_PRESS then
      { s with dragging := true, lastMouseX := qx, lastMouseY := qy }
    else if action = GLFW_RELEASE then
      { s with dragging := false }
    else s
  else s

/-- framebuffer_size_callback (lines 190-195): store the new framebuffer size
unconditionally and re-query the logical window size (`ww`, `wh` stand for
the result of glfwGetWindowSize). -/
def framebuffer_size_callback (w h ww wh : ℤ) (s : AppState) : AppState :=
  { s with width := w, height := h, windowWidth := ww, windowHeight := wh }

/-- The screen-to-plane transform of the fragment shader (lines 30-33) and of
the host-side sampling: uv = (pixel - 0.5 * resolution) / min(width, height),
then c = center + uv * zoom.  `px`, `py` are framebuffer pixel coordinates. -/
def toComplex (px py : ℚ) (w h : ℤ) (cx cy zoom : ℚ) : ℚ × ℚ :=
  let minRes : ℚ := ((min w h : ℤ) : ℚ)
  (cx + (px - 1/2 * (w : ℚ)) / minRes * zoom,
   cy + (py - 1/2 * (h : ℚ)) / minRes * zoom)

/-- The plane point currently under the pointer: the pointer's logical
coordinates scaled to framebuffer pixels (as in scroll_callback lines
147-148), pushed through `toComplex` at the state's camera. -/
def pointerPlanePoint (s : AppState) : ℚ × ℚ :=
  toComplex (s.mouseX * (s.width : ℚ) / (s.windowWidth : ℚ))
    (s.mouseY * (s.height : ℚ) / (s.windowHeight : ℚ))
    s.width s.height s.centerX s.centerY s.zoom

/-! ## Escape-time iteration and the complexity map (lines 81-137) -/

/-- Loop body of getIterations (lines 84-89), with fuel equal to the number
of remaining allowed iterations: while dot(z, z) < 4 and iterations remain,
step z to z^2 + c and count. -/
def getIterationsGo (c_re c_im : ℚ) : ℕ → ℚ → ℚ → ℕ → ℕ
  | 0, _, _, iter => iter
  | fuel + 1, z_re, z_im, iter =>
    if z_re * z_re + z_im * z_im < 4 then
      getIterationsGo c_re c_im fuel
        (z_re * z_re - z_im * z_im + c_re) (2 * z_re * z_im + c_im) (iter + 1)
    else iter

/-- getIterations (lines 81-91): escape-time count for c, starting from
z = 0, capped at maxIter. -/
def getIterations (c_re c_im : ℚ) (maxIter : ℕ) : ℕ :=
  getIterationsGo c_re c_im maxIter 0 0 0

def GRID_SIZE : ℕ := 64

/-- The 9 sample offsets (sx, sy) of a tile, in the loop order of lines
103-104 (sy outer, sx inner). -/
def tileSamples : List (ℕ × ℕ) :=
  [(0, 0), (1, 0), (2, 0), (0, 1), (1, 1), (2, 1), (0, 2), (1, 2), (2, 2)]

/-- One sample of tile (i, j) (lines 105-114): pixel position
((i + sx * 0.5) * width / 64, (j + sy * 0.5) * height / 64), centered and
normalized by min(width, height), mapped to the plane and iterated at the
global cap. -/
def tileSampleIter (cx cy zoom : ℚ) (w h : ℤ) (maxIter : ℕ) (i j sx sy : ℕ) : ℕ :=
  let minRes : ℚ := ((min w h : ℤ) : ℚ)
  let x : ℚ := ((i : ℚ) + (sx : ℚ) * (1/2)) * (w : ℚ) / (GRID_SIZE : ℚ)
  let y : ℚ := ((j : ℚ) + (sy : ℚ) * (1/2)) * (h : ℚ) / (GRID_SIZE : ℚ)
  let uv_x : ℚ := (x - 1/2 * (w : ℚ)) / minRes
  let uv_y : ℚ := (y - 1/2 * (h : ℚ)) / minRes
  getIterations (cx + uv_x * zoom) (cy + uv_y * zoom) maxIter

/-- The 9 sample iteration counts of tile (i, j). -/
def tileIters (cx cy zoom : ℚ) (w h : ℤ) (maxIter : ℕ) (i j : ℕ) : List ℕ :=
  tileSamples.map fun p => tileSampleIter cx cy zoom w h maxIter i j p.1 p.2

/-- maxTileIter of lines 99/116: maximum sample count, accumulator starting
at 0. -/
def tileMaxIter (cx cy zoom : ℚ) (w h : ℤ) (maxIter : ℕ) (i j : ℕ) : ℕ :=
  (tileIters cx cy zoom w h maxIter i j).foldl max 0

/-- minTileIter of lines 100/117: minimum sample count, accumulator starting
at maxIterations. -/
def tileMinIter (cx cy zoom : ℚ) (w h : ℤ) (maxIter : ℕ) (i j : ℕ) : ℕ :=
  (tileIters cx cy zoom w h maxIter i j).foldl min maxIter

/-- hitMax of lines 101/115: true when some sample reached the global cap. -/
def tileHitMax (cx cy zoom : ℚ) (w h : ℤ) (maxIter : ℕ) (i j : ℕ) : Bool :=
  (tileIters cx cy zoom w h maxIter i j).any fun iter => maxIter ≤ iter

/-- isSimple of line 126: no sample hit the cap and the sample range is
below 2 (int subtraction, modelled in ℤ). -/
def tileIsSimple (cx cy zoom : ℚ) (w h : ℤ) (maxIter : ℕ) (i j : ℕ) : Bool :=
  !tileHitMax cx cy zoom w h maxIter i j &&
    decide (((tileMaxIter cx cy zoom w h maxIter i j : ℤ) -
      (tileMinIter cx cy zoom w h maxIter i j : ℤ)) < 2)

/-- Simple-tile budget of lines 130-131: buffer = max(32, (int)(maxTileIter
* 0.2)), predicted = min(maxIterations, maxTileIter + buffer). -/
def predictedBudget (maxIter maxTileIter : ℕ) : ℤ :=
  let buffer : ℤ := max 32 (cTruncQ ((maxTileIter : ℚ) * (2/10)))
  min (maxIter : ℤ) ((maxTileIter : ℤ) + buffer)

/-- The same budget with the spec sentence's `round` in place of the code's
int cast; kept only to compare the spec's formula against the source. -/
def predictedBudgetSpec (maxIter maxTileIter : ℕ) : ℤ :=
  min (maxIter : ℤ) ((maxTileIter : ℤ) + max 32 (round ((maxTileIter : ℚ) * (2/10))))

/-- Entry (i, j) of the complexity grid written by updateComplexityMap
(lines 93-137): a simple tile stores predicted / maxIterations, any other
tile stores 1.0. -/
def updateComplexityMap (cx cy zoom : ℚ) (w h : ℤ) (maxIter : ℕ) (i j : ℕ) : ℚ :=
  if tileIsSimple cx cy zoom w h maxIter i j then
    ((predictedBudget maxIter (tileMaxIter cx cy zoom w h maxIter i j) : ℤ) : ℚ) /
      (maxIter : ℚ)
  else 1

/-! ## Iteration-cap policy (lines 277-280), over ℝ because of log10 -/

/-- The per-frame iteration cap (lines 278-280): 256 + (int)(-log10(zoom) *
100), then clamped below by 256 and above by 2000 with two sequential ifs. -/
noncomputable def iterationCap (zoom : ℝ) : ℤ :=
  let m0 : ℤ := 256 + cTruncZ (-Real.logb 10 zoom * 100)
  let m1 : ℤ := if m0 < 256 then 256 else m0
  if m1 > 2000 then 2000 else m1

/-- The spec sentence's cap formula, with `round` in place of the code's int
cast; kept only to compare the spec's formula against the source. -/
noncomputable def iterationCapSpec (zoom : ℝ) : ℤ :=
  max 256 (min 2000 (256 + round (-Real.logb 10 zoom * 100)))

/-! ## Event sequences -/

/-- One GLFW input event, as delivered to the four callbacks. -/
inductive Event where
  | scroll (xoffset yoffset : ℚ)
  | cursorMove (xpos ypos : ℚ)
  | mouseButton (button action : ℤ) (qx qy : ℚ)
  | resize (w h ww wh : ℤ)
deriving Repr

/-- Dispatch one event to its callback. -/
def applyEvent (s : AppState) (e : Event) : AppState :=
  match e with
  | Event.scroll xo yo => scroll_callback xo yo s
  | Event.cursorMove x y => cursor_position_callback x y s
  | Event.mouseButton b a qx qy => mouse_button_callback b a qx qy s
  | Event.resize w h ww wh => framebuffer_size_callback w h ww wh s

/-- Run a sequence of input events from a starting state. -/
def applyEvents (evs : List Event) (s : AppState) : AppState :=
  evs.foldl applyEvent s

/-! ## Helper lemmas -/

attribute [local semireducible] Rat.mul Rat.inv Rat.add Rat.sub

theorem scroll_zoom_eq (xo yo : ℚ) (s : AppState) :
    (scroll_callback xo yo s).zoom = s.zoom * (if 0 < yo then 9/10 else 11/10) := rfl

theorem applyEvent_zoom_pos (e : Event) (s : AppState) (h : 0 < s.zoom) :
    0 < (applyEvent s e).zoom := by
  cases e with
  | scroll xo yo =>
    simp only [applyEvent, scroll_zoom_eq]
    split <;> positivity
  | cursorMove x y =>
    simp only [applyEvent, cursor_position_callback]
    split <;> exact h
  | mouseButton b a qx qy =>
    simp only [applyEvent, mouse_button_callback]
    split
    · split
      · exact h
      · split <;> exact h
    · exact h
  | resize w2 h2 ww wh => exact h

theorem applyEvents_zoom_pos (evs : List Event) (s : AppState) (h : 0 < s.zoom) :
    0 < (applyEvents evs s).zoom := by
  induction evs generalizing s with
  | nil => exact h
  | cons e tl ih => exact ih (applyEvent s e) (applyEvent_zoom_pos e s h)

/-! ## Claim theorems: interaction -/

/-- C1.  Zoom anchoring: for any pointer position, viewport with positive
dimensions, center and positive zoom, and either scroll direction, the plane
point under the pointer computed before the scroll zoom step equals the one
computed after it (here exactly, hence within any relative tolerance). -/
theorem zoom_anchor_invariant (s : AppState) (xo yo : ℚ)
    (hw : 0 < s.width) (hh : 0 < s.height) (hz : 0 < s.zoom) :
    pointerPlanePoint (scroll_callback xo yo s) = pointerPlanePoint s := by
  by_cases hyo : 0 < yo <;>
    · simp only [pointerPlanePoint, toComplex, scroll_callback, hyo, if_true, if_false,
        reduceIte]
      refine Prod.ext ?_ ?_ <;> simp <;> ring

/-- C1 witness: the anchor identity instantiated at the initial state and a
scroll of +3. -/
theorem zoom_anchor_invariant_witness :
    (0 : ℤ) < initState.width ∧ (0 : ℤ) < initState.height ∧ (0 : ℚ) < initState.zoom ∧
      pointerPlanePoint (scroll_callback 0 3 initState) = pointerPlanePoint initState := by
  refine ⟨by decide, by decide, by norm_num [initState], ?_⟩
  exact zoom_anchor_invariant initState 0 3 (by decide) (by decide) (by norm_num [initState])

/-- C7.  Pan scenario: on an 800x600 window mapped 1:1 to an 800x600
framebuffer at zoom 2, a drag of (dx = 50, dy = 0) pixels moves center.re
down by exactly 50 / 600 * 2 and leaves center.im unchanged. -/
theorem pan_scenario (cx cy lx ly : ℚ) :
    (cursor_position_callback (lx + 50) ly
        { centerX := cx, centerY := cy, zoom := 2, mouseX := lx, mouseY := ly,
          width := 800, height := 600, windowWidth := 800, windowHeight := 600,
          dragging := true, lastMouseX := lx, lastMouseY := ly }).centerX
        = cx - 50 / 600 * 2 ∧
      (cursor_position_callback (lx + 50) ly
        { centerX := cx, centerY := cy, zoom := 2, mouseX := lx, mouseY := ly,
          width := 800, height := 600, windowWidth := 800, windowHeight := 600,
          dragging := true, lastMouseX := lx, lastMouseY := ly }).centerY = cy := by
  constructor <;> simp [cursor_position_callback] <;> ring

/-- C8.  The code stores a non-positive resize unchanged: a (0, 0)
framebuffer-size event on the initial 800x600 viewport overwrites the
dimensions with the invalid values instead of keeping the prior viewport. -/
theorem resize_stores_nonpositive :
    (framebuffer_size_callback 0 0 800 600 initState).width = 0 ∧
      (framebuffer_size_callback 0 0 800 600 initState).height = 0 ∧
      initState.width = 800 ∧ initState.height = 600 :=
  ⟨rfl, rfl, rfl, rfl⟩

/-- C9.  Zoom positivity: starting from the initial state (zoom = 2), every
sequence of scroll, pointer-move, button and resize events leaves zoom
strictly positive, because both scroll factors 0.9 and 1.1 are positive and
no other event touches zoom. -/
theorem zoom_always_positive (evs : List Event) :
    0 < (applyEvents evs initState).zoom :=
  applyEvents_zoom_pos evs initState (by norm_num [initState])

/-- C10.  A scroll event with vertical offset 0 (or any offset at most 0) is
a zoom-out: the factor is 1.1, so a positive zoom strictly increases. -/
theorem zero_offset_scroll_zooms_out (s : AppState) (xo yo : ℚ)
    (hyo : yo ≤ 0) (hz : 0 < s.zoom) :
    (scroll_callback xo yo s).zoom = s.zoom * (11/10) ∧
      s.zoom < (scroll_callback xo yo s).zoom := by
  have hnot : ¬ (0 < yo) := not_lt.mpr hyo
  rw [scroll_zoom_eq, if_neg hnot]
  exact ⟨rfl, by nlinarith⟩

/-- C10 witness: a zero-offset scroll at the initial state multiplies the
zoom 2 by 1.1. -/
theorem zero_offset_scroll_zooms_out_witness :
    (0 : ℚ) ≤ 0 ∧ (0 : ℚ) < initState.zoom ∧
      ((scroll_callback 0 0 initState).zoom = initState.zoom * (11/10) ∧
        initState.zoom < (scroll_callback 0 0 initState).zoom) :=
  ⟨le_refl 0, by norm_num [initState],
    zero_offset_scroll_zooms_out initState 0 0 (le_refl 0) (by norm_num [initState])⟩

/-! ## Claim theorems: complexity map -/

/-- C3.  A tile in which any of the 9 samples reached the global iteration
cap is not simple, so updateComplexityMap stores exactly 1.0 for it. -/
theorem hitcap_tile_full_budget (cx cy zoom : ℚ) (w h : ℤ) (maxIter : ℕ) (i j : ℕ)
    (hhit : tileHitMax cx cy zoom w h maxIter i j = true) :
    updateComplexityMap cx cy zoom w h maxIter i j = 1 := by
  have hns : tileIsSimple cx cy zoom w h maxIter i j = false := by
    unfold tileIsSimple
    rw [hhit]
    rfl
  unfold updateComplexityMap
  rw [hns]
  simp

/-- C3 witness: at center 0, zoom 128, a 64x64 viewport and cap 8, tile
(32, 32) samples the parameter c = 0, which never escapes, so the tile hits
the cap and stores 1.0. -/
theorem hitcap_tile_full_budget_witness :
    tileHitMax 0 0 128 64 64 8 32 32 = true ∧
      updateComplexityMap 0 0 128 64 64 8 32 32 = 1 :=
  ⟨by decide, hitcap_tile_full_budget 0 0 128 64 64 8 32 32 (by decide)⟩

/-- C4.  Every complexity-grid entry lies in [0, 1], and denormalized by the
global cap (which the render loop keeps at 256 or more) it is at least 16;
in fact at least 32, from the buffer max(32, ...) and the 1.0 branch. -/
theorem complexity_entry_range_floor (cx cy zoom : ℚ) (w h : ℤ) (maxIter : ℕ)
    (hz : 0 < zoom) (hw : 0 < w) (hh : 0 < h) (hcap : 256 ≤ maxIter)
    (i j : ℕ) (hi : i < GRID_SIZE) (hj : j < GRID_SIZE) :
    (0 ≤ updateComplexityMap cx cy zoom w h maxIter i j ∧
      updateComplexityMap cx cy zoom w h maxIter i j ≤ 1) ∧
    16 ≤ updateComplexityMap cx cy zoom w h maxIter i j * (maxIter : ℚ) := by
  have h0 : 0 < maxIter := by omega
  have hcapQ : (0 : ℚ) < (maxIter : ℚ) := by exact_mod_cast h0
  unfold updateComplexityMap
  by_cases hs : tileIsSimple cx cy zoom w h maxIter i j = true
  · rw [if_pos hs]
    set maxT := tileMaxIter cx cy zoom w h maxIter i j with hmaxT
    have hp32 : (32 : ℤ) ≤ predictedBudget maxIter maxT := by
      unfold predictedBudget
      refine le_min (by exact_mod_cast by omega) ?_
      have hb := le_max_left (32 : ℤ) (cTruncQ ((maxT : ℚ) * (2/10)))
      have hmt : (0 : ℤ) ≤ (maxT : ℤ) := Int.ofNat_nonneg _
      omega
    have hple : predictedBudget maxIter maxT ≤ (maxIter : ℤ) :=
      min_le_left _ _
    have hpleQ : ((predictedBudget maxIter maxT : ℤ) : ℚ) ≤ (maxIter : ℚ) := by
      exact_mod_cast hple
    have hp0Q : (0 : ℚ) ≤ ((predictedBudget maxIter maxT : ℤ) : ℚ) := by
      exact_mod_cast (by omega : (0 : ℤ) ≤ predictedBudget maxIter maxT)
    refine ⟨⟨div_nonneg hp0Q (le_of_lt hcapQ), ?_⟩, ?_⟩
    · rw [div_le_one hcapQ]
      exact hpleQ
    · rw [div_mul_cancel₀ _ (ne_of_gt hcapQ)]
      exact_mod_cast (by omega : (16 : ℤ) ≤ predictedBudget maxIter maxT)
  · rw [if_neg hs]
    refine ⟨⟨by norm_num, by norm_num⟩, ?_⟩
    rw [one_mul]
    exact_mod_cast (by omega : 16 ≤ maxIter)

/-- C4 witness: at center (10, 10), zoom 1, a 64x64 viewport and cap 256,
tile (0, 0) satisfies all the bounds. -/
theorem complexity_entry_range_floor_witness :
    (0 : ℚ) < 1 ∧ (0 : ℤ) < 64 ∧ 256 ≤ 256 ∧ (0 : ℕ) < GRID_SIZE ∧
      ((0 ≤ updateComplexityMap 10 10 1 64 64 256 0 0 ∧
          updateComplexityMap 10 10 1 64 64 256 0 0 ≤ 1) ∧
        16 ≤ updateComplexityMap 10 10 1 64 64 256 0 0 * ((256 : ℕ) : ℚ)) :=
  ⟨by norm_num, by norm_num, le_refl 256, by decide,
    complexity_entry_range_floor 10 10 1 64 64 256 (by norm_num) (by norm_num)
      (by norm_num) (le_refl 256) 0 0 (by decide) (by decide)⟩

/-- C5 (amended).  A tile is classified simple iff no sample hit the cap and
the sample range is below 2; a simple tile stores
min(cap, maxTileIter + max(32, trunc(maxTileIter * 0.2))) / cap, where trunc
is the C int cast (truncation toward zero), not rounding to nearest. -/
theorem simple_tile_classification_budget (cx cy zoom : ℚ) (w h : ℤ)
    (maxIter : ℕ) (i j : ℕ) :
    (tileIsSimple cx cy zoom w h maxIter i j = true ↔
      (tileHitMax cx cy zoom w h maxIter i j = false ∧
        (tileMaxIter cx cy zoom w h maxIter i j : ℤ) -
          (tileMinIter cx cy zoom w h maxIter i j : ℤ) < 2)) ∧
    (tileIsSimple cx cy zoom w h maxIter i j = true →
      updateComplexityMap cx cy zoom w h maxIter i j =
        ((min (maxIter : ℤ) ((tileMaxIter cx cy zoom w h maxIter i j : ℤ) +
            max 32 (cTruncQ ((tileMaxIter cx cy zoom w h maxIter i j : ℚ) * (2/10)))) : ℤ) : ℚ) /
          (maxIter : ℚ)) := by
  constructor
  · simp [tileIsSimple, Bool.and_eq_true, Bool.not_eq_true', decide_eq_true_eq]
  · intro hs
    unfold updateComplexityMap predictedBudget
    rw [if_pos hs]

/-- C5 witness: at center (10, 10), zoom 1, a 64x64 viewport and cap 256,
tile (0, 0) is simple (all 9 samples escape after 1 iteration) and stores
min(256, 1 + max(32, 0)) / 256 = 33 / 256. -/
theorem simple_tile_classification_budget_witness :
    tileIsSimple 10 10 1 64 64 256 0 0 = true ∧
      updateComplexityMap 10 10 1 64 64 256 0 0 =
        ((min ((256 : ℕ) : ℤ) ((tileMaxIter 10 10 1 64 64 256 0 0 : ℤ) +
            max 32 (cTruncQ ((tileMaxIter 10 10 1 64 64 256 0 0 : ℚ) * (2/10)))) : ℤ) : ℚ) /
          ((256 : ℕ) : ℚ) :=
  ⟨by decide, (simple_tile_classification_budget 10 10 1 64 64 256 0 0).2 (by decide)⟩

/-- C5 counterexample to the claim as stated: on the sampling outcome
maxTileIter = 163 with cap 256 (no cap hit, range 0), the code's int cast
gives buffer trunc(32.6) = 32 and budget 195, while the claim's round gives
33 and budget 196. -/
theorem simple_budget_round_counterexample :
    predictedBudget 256 163 = 195 ∧ predictedBudgetSpec 256 163 = 196 ∧
      predictedBudget 256 163 ≠ predictedBudgetSpec 256 163 := by
  have hr : round (((163 : ℕ) : ℚ) * (2/10)) = 33 := by norm_num [round_eq]
  have h3 : predictedBudgetSpec 256 163 = 196 := by
    unfold predictedBudgetSpec
    rw [hr]
    decide
  have h1 : predictedBudget 256 163 = 195 := by decide
  refine ⟨h1, h3, ?_⟩
  intro hEq
  rw [h1, h3] at hEq
  exact absurd hEq (by decide)

/-! ## Claim theorems: iteration-cap policy -/

theorem cTruncZ_mono {x y : ℝ} (h : x ≤ y) : cTruncZ x ≤ cTruncZ y := by
  unfold cTruncZ
  by_cases hx : 0 ≤ x
  · rw [if_pos hx, if_pos (le_trans hx h)]
    exact Int.floor_mono h
  · rw [if_neg hx]
    by_cases hy : 0 ≤ y
    · rw [if_pos hy]
      have hc : ⌈x⌉ ≤ 0 := Int.ceil_le.mpr (by push_cast; linarith [lt_of_not_le hx])
      have hf : (0 : ℤ) ≤ ⌊y⌋ := Int.le_floor.mpr (by push_cast; exact hy)
      omega
    · rw [if_neg hy]
      exact Int.ceil_mono h

theorem iterationCap_eq_clamp (z : ℝ) :
    iterationCap z = max 256 (min 2000 (256 + cTruncZ (-Real.logb 10 z * 100))) := by
  simp only [iterationCap]
  split <;> split <;> omega

/-- C2 (amended).  The per-frame iteration cap equals
clamp(256 + trunc(-log10(zoom) * 100), 256, 2000) where trunc is the C int
cast (truncation toward zero), not rounding to nearest; in particular at
zoom = 2.0 the cap is 256. -/
theorem iterationCap_formula_trunc :
    (∀ z : ℝ, 0 < z →
        iterationCap z = max 256 (min 2000 (256 + cTruncZ (-Real.logb 10 z * 100)))) ∧
      iterationCap 2 = 256 := by
  refine ⟨fun z _ => iterationCap_eq_clamp z, ?_⟩
  have hpos : 0 < Real.logb 10 2 := Real.logb_pos (by norm_num) (by norm_num)
  have hneg : -Real.logb 10 2 * 100 < 0 := by nlinarith
  have ht : cTruncZ (-Real.logb 10 2 * 100) ≤ 0 := by
    unfold cTruncZ
    rw [if_neg (not_le.mpr hneg)]
    exact Int.ceil_le.mpr (by push_cast; linarith)
  rw [iterationCap_eq_clamp]
  omega

/-- C2 witness: the trunc-clamp formula instantiated at zoom = 2. -/
theorem iterationCap_formula_trunc_witness :
    (0 : ℝ) < 2 ∧
      iterationCap 2 = max 256 (min 2000 (256 + cTruncZ (-Real.logb 10 2 * 100))) :=
  ⟨by norm_num, iterationCap_formula_trunc.1 2 (by norm_num)⟩

/-- C2 counterexample to the claim as stated: at zoom = 10 ^ (-101/200),
where -log10(zoom) * 100 = 50.5, the code truncates to 50 and yields cap
306, while the claim's round(50.5) = 51 yields 307. -/
theorem iterationCap_round_counterexample :
    (0 : ℝ) < (10 : ℝ) ^ (-(101/200) : ℝ) ∧
      iterationCap ((10 : ℝ) ^ (-(101/200) : ℝ)) = 306 ∧
      iterationCapSpec ((10 : ℝ) ^ (-(101/200) : ℝ)) = 307 ∧
      iterationCap ((10 : ℝ) ^ (-(101/200) : ℝ)) ≠
        iterationCapSpec ((10 : ℝ) ^ (-(101/200) : ℝ)) := by
  have hzpos : (0 : ℝ) < (10 : ℝ) ^ (-(101/200) : ℝ) :=
    Real.rpow_pos_of_pos (by norm_num) _
  have hlogb : Real.logb 10 ((10 : ℝ) ^ (-(101/200) : ℝ)) = -(101/200) :=
    Real.logb_rpow (by norm_num) (by norm_num)
  have harg : -Real.logb 10 ((10 : ℝ) ^ (-(101/200) : ℝ)) * 100 = 101/2 := by
    rw [hlogb]; ring
  have htr : cTruncZ ((101 : ℝ)/2) = 50 := by
    unfold cTruncZ
    rw [if_pos (by norm_num), Int.floor_eq_iff]
    constructor <;> norm_num
  have hround : round ((101 : ℝ)/2) = 51 := by
    rw [round_eq, Int.floor_eq_iff]
    constructor <;> norm_num
  have h306 : iterationCap ((10 : ℝ) ^ (-(101/200) : ℝ)) = 306 := by
    rw [iterationCap_eq_clamp, harg, htr]
    decide
  have h307 : iterationCapSpec ((10 : ℝ) ^ (-(101/200) : ℝ)) = 307 := by
    unfold iterationCapSpec
    rw [harg, hround]
    decide
  exact ⟨hzpos, h306, h307, by rw [h306, h307]; decide⟩

/-- C6.  The iteration cap is antitone in zoom on positive zooms, and always
lies in [256, 2000]. -/
theorem iterationCap_antitone_and_bounds :
    (∀ z1 z2 : ℝ, 0 < z1 → z1 < z2 → iterationCap z2 ≤ iterationCap z1) ∧
      ∀ z : ℝ, 0 < z → 256 ≤ iterationCap z ∧ iterationCap z ≤ 2000 := by
  constructor
  · intro z1 z2 h1 h12
    rw [iterationCap_eq_clamp, iterationCap_eq_clamp]
    have hlog : Real.logb 10 z1 ≤ Real.logb 10 z2 :=
      Real.logb_le_logb_of_le (by norm_num) h1 (le_of_lt h12)
    have ht : cTruncZ (-Real.logb 10 z2 * 100) ≤ cTruncZ (-Real.logb 10 z1 * 100) :=
      cTruncZ_mono (by linarith)
    omega
  · intro z _
    rw [iterationCap_eq_clamp]
    omega

/-- C6 witness: antitonicity at the pair (1, 10) and bounds at zoom = 3. -/
theorem iterationCap_antitone_and_bounds_witness :
    ((0 : ℝ) < 1 ∧ (1 : ℝ) < 10 ∧ iterationCap 10 ≤ iterationCap 1) ∧
      ((0 : ℝ) < 3 ∧ 256 ≤ iterationCap 3 ∧ iterationCap 3 ≤ 2000) :=
  ⟨⟨by norm_num, by norm_num,
      iterationCap_antitone_and_bounds.1 1 10 (by norm_num) (by norm_num)⟩,
    ⟨by norm_num, (iterationCap_antitone_and_bounds.2 3 (by norm_num)).1,
      (iterationCap_antitone_and_bounds.2 3 (by norm_num)).2⟩⟩

end MandelZoom
